import Mathlib

/-!
Verification of the kanji_count Django application against a shallow
embedding of src/kanji_count/models.py and src/kanji_known/models.py:
kanji classification by codepoint table, per-article kanji frequency
counting, and per-user comprehension-ratio ranking.

Modelling conventions:
  * Python text is a list of characters; machine integers are Nat.
  * The Django ORM state relevant to a claim is passed explicitly: the
    KanjiCount rows of one article are carried on the article record
    (each row references exactly one article), and the Article table is a
    list of such records keyed by the unique url field.
  * Fallible Python code (raised exceptions) is embedded with Except.
  * BeautifulSoup is an external collaborator; a parsed page is embedded
    as a Soup record holding what the code reads from it: the optional
    title element (soup.title is None when the element is absent) and
    the optional body text (soup.body is None when the element is
    absent).  Attribute access on None raises AttributeError.
-/

namespace KanjiCount

/-! ## The kanji classifier (kanji_count/models.py, class Kanji) -/

/-- ord(FIRST_COMMON_KANJI), the module constant for U+4E00 (一). -/
def FIRST_COMMON_KANJI : Nat := 0x4e00

/-- ord(LAST_COMMON_KANJI), the module constant for U+9FA5 (龥). -/
def LAST_COMMON_KANJI : Nat := 0x9fa5

/-- ord(FIRST_RARE_KANJI), the module constant for U+3400 (㐀). -/
def FIRST_RARE_KANJI : Nat := 0x3400

/-- ord(LAST_RARE_KANJI), the module constant for U+4DB5 (䶵). -/
def LAST_RARE_KANJI : Nat := 0x4db5

/-- Python range(a, b): the ordinals a, a+1, ..., b-1, upper bound
excluded, exactly as iterated by the for loops in Kanji.generate. -/
def pyRange (a b : Nat) : List Nat := List.range' a (b - a)

/-- The ordinals inserted into the Kanji table by Kanji.generate():
one get_or_create(char=chr(ordinal), ordinal=ordinal) per element of
range(ord(FIRST_COMMON_KANJI), ord(LAST_COMMON_KANJI)) and of
range(ord(FIRST_RARE_KANJI), ord(LAST_RARE_KANJI)).  Since chr and ord
are mutually inverse on these codepoints, a row with char = c exists
after generate() iff ord(c) is in this list. -/
def generatedOrdinals : List Nat :=
  pyRange FIRST_COMMON_KANJI LAST_COMMON_KANJI ++
  pyRange FIRST_RARE_KANJI LAST_RARE_KANJI

/-- Kanji.is_kanji(character): Kanji.objects.filter(char=character).exists(),
membership of the character in the table populated by generate(). -/
def is_kanji (c : Char) : Bool := generatedOrdinals.contains c.toNat

/-- A computation-friendly twin of the classifier: the same function given
directly by arithmetic range checks.  Concrete runs of the embedded code
are evaluated through this form, because kernel evaluation of membership
in the 27482-element materialized table overflows the interpreter stack. -/
def is_kanji_arith (c : Char) : Bool :=
  (decide (FIRST_COMMON_KANJI ≤ c.toNat) && decide (c.toNat < LAST_COMMON_KANJI)) ||
  (decide (FIRST_RARE_KANJI ≤ c.toNat) && decide (c.toNat < LAST_RARE_KANJI))

/-! ## Data model (Article and KanjiCount rows, parsed pages) -/

/-- The Python exceptions the embedded code can raise. -/
inductive PyErr where
  /-- AttributeError, from attribute access on None. -/
  | attributeError : PyErr
  /-- requests.exceptions.HTTPError or a network failure, raised out of
  requests.get or response.raise_for_status. -/
  | fetchError : PyErr
  /-- django.db.IntegrityError, from violating a unique constraint. -/
  | integrityError : PyErr
  /-- Model.DoesNotExist, from objects.get with no matching row. -/
  | doesNotExist : PyErr
deriving DecidableEq

/-- One row of the KanjiCount table: the count of a single Kanji in one
article (the article foreign key is implicit: rows are stored on their
article).  unique_together = (article, kanji). -/
structure KanjiCountRec where
  kanji : Char
  total : Nat
deriving DecidableEq

/-- A parsed page, the result of BeautifulSoup(content, "html.parser") on
fetched content: only the two attributes the code reads.  titleTag is
soup.title.string (none when the title element is absent), bodyTag is
soup.body.get_text() (none when the body element is absent). -/
structure Soup where
  titleTag : Option String
  bodyTag : Option (List Char)
deriving DecidableEq

/-- One row of the Article table, together with its KanjiCount rows.
Fresh rows created by get_or_create(url=url) carry the field defaults:
empty title, empty content and kanji_total = 0. -/
structure StoredArticle where
  url : String
  title : String
  content : Soup
  kanji_total : Nat
  counts : List KanjiCountRec
deriving DecidableEq

/-! ## Article.count_kanji -/

/-- collections.Counter over the kanji characters of the tagless content:
the pairs (character, number of occurrences), one pair per distinct kanji
character.  (Python Counter iterates pairs in first-occurrence order;
the embedding uses the Mathlib dedup order.  No property below depends
on the order of the pairs, only on which pairs occur.)  The classifier
is an explicit parameter so that concrete runs can be evaluated through
the arithmetic twin. -/
def counterItems (kanjiP : Char → Bool) (text : List Char) : List (Char × Nat) :=
  ((text.filter kanjiP).dedup).map (fun c => (c, (text.filter kanjiP).count c))

/-- KanjiCount.objects.get_or_create(article=self, kanji=kanji, total=count),
restricted to the rows of the one article: the lookup filters on all of
(article, kanji, total); when no row matches, the insert violates the
unique_together (article, kanji) constraint if a row for the same kanji
already exists with a different total. -/
def getOrCreateCount (counts : List KanjiCountRec) (c : Char) (n : Nat) :
    Except PyErr (List KanjiCountRec) :=
  if counts.any (fun r => r.kanji == c && r.total == n) then .ok counts
  else if counts.any (fun r => r.kanji == c) then .error .integrityError
  else .ok (counts ++ [⟨c, n⟩])

/-- The for loop of count_kanji: one get_or_create per counter item, in
sequence. -/
def applyCounts : List (Char × Nat) → List KanjiCountRec →
    Except PyErr (List KanjiCountRec)
  | [], counts => .ok counts
  | (c, n) :: rest, counts =>
    match getOrCreateCount counts c n with
    | .error e => .error e
    | .ok counts2 => applyCounts rest counts2

/-- Article.remove_tags(content): soup.body.get_text().  When the parsed
content has no body element, soup.body is None and the get_text attribute
access raises AttributeError. -/
def remove_tags (s : Soup) : Except PyErr (List Char) :=
  match s.bodyTag with
  | none => .error .attributeError
  | some text => .ok text

/-- Article.get_title(content): soup.title.string.  When the parsed
content has no title element, soup.title is None and the string attribute
access raises AttributeError. -/
def get_title (s : Soup) : Except PyErr String :=
  match s.titleTag with
  | none => .error .attributeError
  | some t => .ok t

/-- Article.count_kanji(self), with the classifier as an explicit
parameter: strip tags from self.content, count the kanji characters, set
self.kanji_total to the sum of the counter values and save, then run
get_or_create for every counter item.  (In Python the save of kanji_total
precedes the loop, so an IntegrityError raised inside the loop leaves the
new kanji_total and the rows created so far persisted; the embedding
returns only the error in that case, and no property below exercises that
path.) -/
def count_kanji_impl (kanjiP : Char → Bool) (a : StoredArticle) :
    Except PyErr StoredArticle := do
  let tagless ← remove_tags a.content
  let items := counterItems kanjiP tagless
  let a1 := { a with kanji_total := (items.map Prod.snd).sum }
  let counts2 ← applyCounts items a1.counts
  return { a1 with counts := counts2 }

/-- Article.count_kanji(self), as in the source: the per-character test is
Kanji.is_kanji. -/
def count_kanji : StoredArticle → Except PyErr StoredArticle :=
  count_kanji_impl is_kanji

/-! ## Article.from_url -/

/-- A freshly created Article row, as produced by
Article.objects.get_or_create(url=url) with no defaults supplied: the
title and content fields hold their empty defaults (parsing the empty
string yields a soup with neither title nor body) and kanji_total holds
its declared default 0. -/
def blankArticle (url : String) : StoredArticle :=
  { url := url, title := "", content := ⟨none, none⟩, kanji_total := 0, counts := [] }

/-- Article.objects.get_or_create(url=url): return the existing row with
this url, or insert and return a fresh blank row.  The insert is
persisted immediately, before from_url does anything else. -/
def get_or_create_article (url : String) (st : List StoredArticle) :
    StoredArticle × List StoredArticle :=
  match st.find? (fun a => a.url == url) with
  | some a => (a, st)
  | none => (blankArticle url, st ++ [blankArticle url])

/-- article.save(): overwrite the stored row with the same url. -/
def saveArticle (a : StoredArticle) (st : List StoredArticle) : List StoredArticle :=
  st.map (fun b => if b.url == a.url then a else b)

/-- Article.get_content(url): requests.get(url) followed by
response.raise_for_status(), which propagates network failures and
non-success HTTP statuses.  The fetch-and-parse collaborator is passed as
a function from the url to the parsed page or the error. -/
def get_content (fetch : String → Except PyErr Soup) (url : String) :
    Except PyErr Soup :=
  fetch url

/-- Article.from_url(url): get_or_create the row (persisting a blank row
for a new url), fetch the content, extract the title, save, then
count_kanji (which saves again).  The result is the stored Article table
after the call together with the returned article or the raised error.
Each failing step propagates its error, leaving the state persisted so
far.  (On an IntegrityError inside the count_kanji loop, Python would
additionally persist the recomputed kanji_total; no property below
exercises that path.) -/
def from_url (fetch : String → Except PyErr Soup) (url : String)
    (st : List StoredArticle) : List StoredArticle × Except PyErr StoredArticle :=
  let p := get_or_create_article url st
  match get_content fetch url with
  | .error e => (p.2, .error e)
  | .ok page =>
    match get_title page with
    | .error e => (p.2, .error e)
    | .ok t =>
      let article2 := { p.1 with content := page, title := t }
      let st2 := saveArticle article2 p.2
      match count_kanji article2 with
      | .error e => (st2, .error e)
      | .ok article3 => (saveArticle article3 st2, .ok article3)

end KanjiCount

namespace KanjiKnown

open KanjiCount

/-! ## UserProfile (kanji_known/models.py) -/

/-- The sum of the total values of the KanjiCount rows of one article
whose kanji is in the known set: what Sum(kanjicount__total) aggregates
per article after the queryset filter, since the filter on the joined
relation restricts the rows the annotation aggregates. -/
def matchTotal (known : List Char) (a : StoredArticle) : Nat :=
  ((a.counts.filter (fun r => known.contains r.kanji)).map KanjiCountRec.total).sum

/-- Whether the article has at least one KanjiCount row whose kanji is in
the known set: the condition for the article to survive the inner join of
filter(kanjicount__kanji__in=known_kanji). -/
def hasMatch (known : List Char) (a : StoredArticle) : Bool :=
  a.counts.any (fun r => known.contains r.kanji)

/-- UserProfile.get_articles(self): Article.objects
.filter(kanjicount__kanji__in=self.known_kanji.all())
.annotate(known=(Sum(kanjicount__total) * 1.0) / F(kanji_total))
.order_by(-known).  The inner join keeps exactly the articles with at
least one matching KanjiCount row; the annotation groups the join rows
per article and divides the sum of the matching totals by kanji_total
(the float arithmetic is embedded in ℚ); order_by sorts by the annotated
value, descending. -/
def get_articles (known : List Char) (db : List StoredArticle) :
    List (StoredArticle × ℚ) :=
  List.insertionSort (fun p q : StoredArticle × ℚ => q.2 ≤ p.2)
    ((db.filter (hasMatch known)).map
      (fun a => (a, (matchTotal known a : ℚ) / (a.kanji_total : ℚ))))

/-- UserProfile.add_known_kanji(self, char), with the row-existence test
of the Kanji table as an explicit parameter:
self.known_kanji.add(Kanji.objects.get(char=char)).  The get raises
DoesNotExist when no Kanji row has this char, in which case the add is
never reached and the known set is returned unchanged; otherwise the
many-to-many add inserts the kanji (a no-op when already present). -/
def add_known_kanji_impl (kanjiExists : Char → Bool) (c : Char)
    (known : List Char) : List Char × Except PyErr Unit :=
  if kanjiExists c then
    (if known.contains c then known else known ++ [c], .ok ())
  else
    (known, .error .doesNotExist)

/-- UserProfile.add_known_kanji(self, char), as in the source: a Kanji row
with char = c exists iff is_kanji c. -/
def add_known_kanji : Char → List Char → List Char × Except PyErr Unit :=
  add_known_kanji_impl is_kanji

/-- A concrete processed article used to instantiate the ranking
properties: frequency table 一 ↦ 3, 二 ↦ 2, 三 ↦ 5 and kanji_total
10. -/
def exRanked : StoredArticle :=
  { url := "http://a", title := "t", content := ⟨some "t", none⟩,
    kanji_total := 10, counts := [⟨'一', 3⟩, ⟨'二', 2⟩, ⟨'三', 5⟩] }

/-- A malformed stored article: kanji_total 0 while a KanjiCount row
remains (the shape of state that re-processing can leave behind, as
shown for C3). -/
def exZeroTotal : StoredArticle :=
  { url := "http://b", title := "t", content := ⟨some "t", none⟩,
    kanji_total := 0, counts := [⟨'一', 1⟩] }

/-- A well-formed stored article satisfying the sum invariant:
kanji_total 5 with the single row 一 ↦ 5. -/
def exInvariant : StoredArticle :=
  { url := "http://c", title := "t", content := ⟨some "t", none⟩,
    kanji_total := 5, counts := [⟨'一', 5⟩] }

end KanjiKnown

namespace KanjiCount

/-! ## Supporting lemmas -/

/-- Arithmetic characterization of the populated table: the two Python
range calls cover exactly the half-open codepoint intervals. -/
theorem is_kanji_iff (c : Char) :
    is_kanji c = true ↔
      (FIRST_COMMON_KANJI ≤ c.toNat ∧ c.toNat < LAST_COMMON_KANJI) ∨
      (FIRST_RARE_KANJI ≤ c.toNat ∧ c.toNat < LAST_RARE_KANJI) := by
  have h1 : LAST_COMMON_KANJI - FIRST_COMMON_KANJI = 20901 := by norm_num [LAST_COMMON_KANJI, FIRST_COMMON_KANJI]
  have h2 : LAST_RARE_KANJI - FIRST_RARE_KANJI = 6581 := by norm_num [LAST_RARE_KANJI, FIRST_RARE_KANJI]
  simp only [is_kanji, List.elem_eq_mem, generatedOrdinals, pyRange,
    List.mem_append, List.mem_range'_1, decide_eq_true_eq, h1, h2,
    FIRST_COMMON_KANJI, LAST_COMMON_KANJI, FIRST_RARE_KANJI, LAST_RARE_KANJI]

/-- The classifier equals its arithmetic twin, pointwise and hence as a
function. -/
theorem is_kanji_eq_arith : is_kanji = is_kanji_arith := by
  funext c
  rcases hb : is_kanji c with _ | _
  · rcases hb2 : is_kanji_arith c with _ | _
    · rfl
    · exfalso
      have hm := (is_kanji_iff c).mpr
      rw [hb] at hm
      simp only [is_kanji_arith, Bool.or_eq_true, Bool.and_eq_true, decide_eq_true_eq] at hb2
      simp only [Bool.false_eq_true, imp_false] at hm
      exact hm hb2
  · have hm := (is_kanji_iff c).mp hb
    symm
    simp only [is_kanji_arith, Bool.or_eq_true, Bool.and_eq_true, decide_eq_true_eq]
    exact hm

/-- Evaluation form of count_kanji through the arithmetic classifier. -/
theorem count_kanji_eq_arith : count_kanji = count_kanji_impl is_kanji_arith := by
  unfold count_kanji
  rw [is_kanji_eq_arith]

end KanjiCount

namespace KanjiKnown

open KanjiCount

/-- Evaluation form of add_known_kanji through the arithmetic
classifier. -/
theorem add_known_kanji_eq_arith :
    add_known_kanji = add_known_kanji_impl is_kanji_arith := by
  unfold add_known_kanji
  rw [is_kanji_eq_arith]

/-- Membership in the ranked output: a pair (a, r) occurs iff a is a
stored article with at least one KanjiCount row whose kanji is known, and
r is the sum of the matching totals divided by kanji_total. -/
theorem mem_get_articles {known : List Char} {db : List StoredArticle}
    {a : StoredArticle} {r : ℚ} :
    (a, r) ∈ get_articles known db ↔
      a ∈ db ∧ (∃ rec ∈ a.counts, rec.kanji ∈ known) ∧
        r = (matchTotal known a : ℚ) / (a.kanji_total : ℚ) := by
  unfold get_articles
  rw [List.mem_insertionSort]
  simp only [List.mem_map, List.mem_filter, hasMatch, List.any_eq_true,
    List.contains, List.elem_eq_mem, decide_eq_true_eq, Prod.mk.injEq]
  constructor
  · rintro ⟨b, ⟨hb, rec, hrec, hk⟩, hba, hr⟩
    subst hba
    exact ⟨hb, ⟨rec, hrec, hk⟩, hr.symm⟩
  · rintro ⟨ha, ⟨rec, hrec, hk⟩, hr⟩
    exact ⟨a, ⟨ha, rec, hrec, hk⟩, rfl, hr.symm⟩

end KanjiKnown

namespace KanjiCount

/-! ## Supporting lemmas about the counting loop -/

/-- A successful get_or_create only keeps or appends rows. -/
theorem getOrCreateCount_subset {counts counts2 : List KanjiCountRec} {c : Char}
    {n : Nat} (h : getOrCreateCount counts c n = .ok counts2) :
    counts ⊆ counts2 := by
  unfold getOrCreateCount at h
  split at h
  · cases h
    exact fun x hx => hx
  · split at h
    · cases h
    · cases h
      exact fun x hx => List.mem_append_left _ hx

/-- After a successful get_or_create for (c, n), the row (c, n) is
present. -/
theorem getOrCreateCount_mem {counts counts2 : List KanjiCountRec} {c : Char}
    {n : Nat} (h : getOrCreateCount counts c n = .ok counts2) :
    (⟨c, n⟩ : KanjiCountRec) ∈ counts2 := by
  unfold getOrCreateCount at h
  split at h
  case isTrue hany =>
    cases h
    simp only [List.any_eq_true, Bool.and_eq_true, beq_iff_eq] at hany
    obtain ⟨r, hr, hk, ht⟩ := hany
    have hra : r = ⟨c, n⟩ := by
      cases r
      simp_all
    rwa [hra] at hr
  case isFalse =>
    split at h
    · cases h
    · cases h
      exact List.mem_append_right _ (List.mem_singleton.mpr rfl)

/-- When the row (c, n) is already present, get_or_create finds it and
changes nothing. -/
theorem getOrCreateCount_of_mem {counts : List KanjiCountRec} {c : Char} {n : Nat}
    (h : (⟨c, n⟩ : KanjiCountRec) ∈ counts) :
    getOrCreateCount counts c n = .ok counts := by
  unfold getOrCreateCount
  rw [if_pos]
  simp only [List.any_eq_true, Bool.and_eq_true, beq_iff_eq]
  exact ⟨⟨c, n⟩, h, rfl, rfl⟩

/-- A successful counting loop only keeps or appends rows. -/
theorem applyCounts_subset :
    ∀ {items : List (Char × Nat)} {counts counts2 : List KanjiCountRec},
      applyCounts items counts = .ok counts2 → counts ⊆ counts2
  | [], _, _, h => by
    cases h
    exact fun x hx => hx
  | (c, n) :: rest, counts, counts2, h => by
    unfold applyCounts at h
    split at h
    · cases h
    case h_2 e counts1 hgc =>
      exact fun x hx => applyCounts_subset h (getOrCreateCount_subset hgc hx)

/-- After a successful counting loop, every processed item has its row
present. -/
theorem applyCounts_mem :
    ∀ {items : List (Char × Nat)} {counts counts2 : List KanjiCountRec},
      applyCounts items counts = .ok counts2 →
      ∀ p ∈ items, (⟨p.1, p.2⟩ : KanjiCountRec) ∈ counts2
  | [], _, _, _, _, hp => by cases hp
  | (c, n) :: rest, counts, counts2, h, p, hp => by
    unfold applyCounts at h
    split at h
    · cases h
    case h_2 e counts1 hgc =>
      rcases List.mem_cons.mp hp with hhead | htail
      · subst hhead
        exact applyCounts_subset h (getOrCreateCount_mem hgc)
      · exact applyCounts_mem h p htail

/-- Shape of a successful count_kanji run: the content had a body, whose
kanji counter the loop committed on top of the existing rows, and the
resulting record carries the recomputed kanji_total. -/
theorem count_kanji_impl_ok {kanjiP : Char → Bool} {a a1 : StoredArticle}
    (h : count_kanji_impl kanjiP a = .ok a1) :
    ∃ text counts2, remove_tags a.content = .ok text ∧
      applyCounts (counterItems kanjiP text) a.counts = .ok counts2 ∧
      a1 = { a with
              kanji_total := ((counterItems kanjiP text).map Prod.snd).sum,
              counts := counts2 } := by
  unfold count_kanji_impl at h
  cases hrt : remove_tags a.content with
  | error e =>
    rw [hrt] at h
    cases h
  | ok text =>
    rw [hrt] at h
    simp only [bind, Except.bind, pure, Except.pure] at h
    cases hac : applyCounts (counterItems kanjiP text) a.counts with
    | error e =>
      rw [hac] at h
      cases h
    | ok counts2 =>
      rw [hac] at h
      cases h
      exact ⟨text, counts2, rfl, hac, rfl⟩

/-- Converse evaluation rule: a body extraction and a successful loop
determine the result of count_kanji. -/
theorem count_kanji_impl_eval {kanjiP : Char → Bool} {a : StoredArticle}
    {text : List Char} {counts2 : List KanjiCountRec}
    (hrt : remove_tags a.content = .ok text)
    (hac : applyCounts (counterItems kanjiP text) a.counts = .ok counts2) :
    count_kanji_impl kanjiP a =
      .ok { a with
             kanji_total := ((counterItems kanjiP text).map Prod.snd).sum,
             counts := counts2 } := by
  unfold count_kanji_impl
  rw [hrt]
  simp only [bind, Except.bind]
  rw [hac]
  rfl

/-- When every item already has its row present, the counting loop changes
nothing. -/
theorem applyCounts_of_mem :
    ∀ {items : List (Char × Nat)} {counts : List KanjiCountRec},
      (∀ p ∈ items, (⟨p.1, p.2⟩ : KanjiCountRec) ∈ counts) →
      applyCounts items counts = .ok counts
  | [], _, _ => rfl
  | (c, n) :: rest, counts, h => by
    unfold applyCounts
    rw [getOrCreateCount_of_mem (h (c, n) (List.mem_cons_self _ _))]
    exact applyCounts_of_mem fun p hp => h p (List.mem_cons_of_mem _ hp)

end KanjiCount

namespace KanjiCount

/-! ## The claims -/

/-- C1, counterexample: the claim includes both upper endpoints, but the
character U+9FA5, whose codepoint is ord(LAST_COMMON_KANJI) and lies in
the claimed closed common interval, is not classified as kanji, because
range(ord(FIRST_COMMON_KANJI), ord(LAST_COMMON_KANJI)) in generate()
stops one short of its upper bound. -/
theorem c1_last_common_counterexample :
    ('龥').toNat = LAST_COMMON_KANJI ∧ is_kanji '龥' = false := by
  refine ⟨by decide, ?_⟩
  simp only [is_kanji_eq_arith]
  decide

/-- C1, amended: for every single-character input c, is_kanji(c) returns
true iff the codepoint of c lies in [U+4E00, U+9FA5) or in
[U+3400, U+4DB5), the upper endpoints excluded, because generate()
populates the table with Python range, whose upper bound is exclusive. -/
theorem c1_is_kanji_range (c : Char) :
    is_kanji c = true ↔
      (0x4e00 ≤ c.toNat ∧ c.toNat < 0x9fa5) ∨
      (0x3400 ≤ c.toNat ∧ c.toNat < 0x4db5) :=
  is_kanji_iff c

/-- C6, counterexample: the claim says is_kanji is true at U+4DFF, but
U+4DFF lies strictly between ord(LAST_RARE_KANJI) = U+4DB5 and
ord(FIRST_COMMON_KANJI) = U+4E00, outside both generated ranges, so the
classifier returns false there. -/
theorem c6_u4dff_counterexample : ¬ is_kanji (Char.ofNat 0x4dff) = true := by
  simp only [is_kanji_eq_arith]
  decide

/-- C6, amended: after generate() has populated the Kanji table, is_kanji
returns false for U+4DFF (which lies in the gap between the rare range
and the common range), false for U+0041, and false for U+3399. -/
theorem c6_boundary_values :
    is_kanji (Char.ofNat 0x4dff) = false ∧ is_kanji 'A' = false ∧
      is_kanji (Char.ofNat 0x3399) = false := by
  simp only [is_kanji_eq_arith]
  decide

/-- C9: re-running count_kanji on an article whose content is unchanged
reproduces exactly the same stored state: the same kanji_total and the
same KanjiCount rows.  The first run leaves a row (c, n) for every
counter item (c, n); the second run recomputes the identical counter from
the same content, so every get_or_create finds its exact row and changes
nothing, and kanji_total is recomputed to the same sum. -/
theorem c9_count_kanji_idempotent (a a1 : StoredArticle)
    (h : count_kanji a = .ok a1) : count_kanji a1 = .ok a1 := by
  obtain ⟨text, counts2, hrt, hac, ha1⟩ := count_kanji_impl_ok h
  subst ha1
  exact count_kanji_impl_eval hrt (applyCounts_of_mem (applyCounts_mem hac))

/-- C9, witness: a concrete first run on the one-character body 一, and
the second run on its result, both return the same stored record. -/
theorem c9_count_kanji_idempotent_witness :
    count_kanji
        { url := "u", title := "t", content := ⟨some "t", some ['一']⟩,
          kanji_total := 0, counts := [] } =
      .ok { url := "u", title := "t", content := ⟨some "t", some ['一']⟩,
            kanji_total := 1, counts := [⟨'一', 1⟩] } ∧
    count_kanji
        { url := "u", title := "t", content := ⟨some "t", some ['一']⟩,
          kanji_total := 1, counts := [⟨'一', 1⟩] } =
      .ok { url := "u", title := "t", content := ⟨some "t", some ['一']⟩,
            kanji_total := 1, counts := [⟨'一', 1⟩] } := by
  have h1 : count_kanji
      { url := "u", title := "t", content := ⟨some "t", some ['一']⟩,
        kanji_total := 0, counts := [] } =
      .ok { url := "u", title := "t", content := ⟨some "t", some ['一']⟩,
            kanji_total := 1, counts := [⟨'一', 1⟩] } := by
    rw [count_kanji_eq_arith]
    rfl
  exact ⟨h1, c9_count_kanji_idempotent _ _ h1⟩

/-- C3: the sum invariant fails across re-processing runs.  A first
completed run on body 一 stores kanji_total = 1 with the single row
(一, 1).  Re-processing after the content changed to 二 completes and
stores kanji_total = 1, but the stale row (一, 1) is never removed, so
the KanjiCount rows now sum to 2 ≠ 1. -/
theorem c3_reprocessing_breaks_sum_invariant :
    count_kanji
        { url := "u", title := "t", content := ⟨some "t", some ['一']⟩,
          kanji_total := 0, counts := [] } =
      .ok { url := "u", title := "t", content := ⟨some "t", some ['一']⟩,
            kanji_total := 1, counts := [⟨'一', 1⟩] } ∧
    count_kanji
        { url := "u", title := "t", content := ⟨some "t", some ['二']⟩,
          kanji_total := 1, counts := [⟨'一', 1⟩] } =
      .ok { url := "u", title := "t", content := ⟨some "t", some ['二']⟩,
            kanji_total := 1, counts := [⟨'一', 1⟩, ⟨'二', 1⟩] } ∧
    ([(⟨'一', 1⟩ : KanjiCountRec), ⟨'二', 1⟩].map KanjiCountRec.total).sum ≠ 1 := by
  refine ⟨?_, ?_, by decide⟩ <;>
    (rw [count_kanji_eq_arith]; rfl)

end KanjiCount

namespace KanjiCount

/-- C7: when the fetched page has no title element, processing does not
degrade to an empty title; it crashes.  get_title evaluates
soup.title.string with soup.title = None, raising AttributeError, and
from_url on such a page aborts with that error after the blank article
row has been persisted, never reaching the save or the counting. -/
theorem c7_missing_title_raises :
    get_title ⟨none, some ['一']⟩ = .error .attributeError ∧
    (from_url (fun _ => .ok ⟨none, some ['一']⟩) "u" []).2 = .error .attributeError ∧
    (from_url (fun _ => .ok ⟨none, some ['一']⟩) "u" []).1 = [blankArticle "u"] :=
  ⟨rfl, rfl, rfl⟩

/-- C8, counterexample: a failing fetch of a previously unseen url does
not leave the stored state unchanged.  Starting from an empty Article
table, from_url first persists a blank row via get_or_create(url=url),
and only then fetches; the fetch error propagates but the blank row
remains. -/
theorem c8_blank_row_persisted :
    (from_url (fun _ => .error .fetchError) "u" []).1 = [blankArticle "u"] ∧
    [blankArticle "u"] ≠ ([] : List StoredArticle) ∧
    (from_url (fun _ => .error .fetchError) "u" []).2 = .error .fetchError :=
  ⟨rfl, by decide, rfl⟩

/-- C8, amended: when the fetch of url fails, from_url propagates the
fetch error and persists no content, title or count changes: if some
stored article already has this url the state is fully unchanged, and
otherwise the only change is the blank article row (default title,
content and kanji_total 0, no KanjiCount rows) that get_or_create
persisted before the fetch. -/
theorem c8_fetch_failure_state (fetch : String → Except PyErr Soup)
    (url : String) (st : List StoredArticle) (e : PyErr)
    (h : fetch url = .error e) :
    (from_url fetch url st).2 = .error e ∧
    ((∃ a ∈ st, a.url = url) → (from_url fetch url st).1 = st) ∧
    ((∀ a ∈ st, a.url ≠ url) → (from_url fetch url st).1 = st ++ [blankArticle url]) := by
  unfold from_url get_content
  rw [h]
  refine ⟨rfl, ?_, ?_⟩
  · rintro ⟨a, ha, haurl⟩
    unfold get_or_create_article
    cases hf : st.find? (fun b => b.url == url) with
    | none =>
      exfalso
      have := List.find?_eq_none.mp hf a ha
      simp only [beq_iff_eq] at this
      exact this haurl
    | some a0 => rfl
  · intro hne
    unfold get_or_create_article
    cases hf : st.find? (fun b => b.url == url) with
    | none => rfl
    | some a0 =>
      exfalso
      have hmem := List.mem_of_find?_eq_some hf
      have hp := List.find?_some hf
      simp only [beq_iff_eq] at hp
      exact hne a0 hmem hp

/-- C8, witness: the amended statement applied to the failing fetch of a
fresh url against the empty stored state. -/
theorem c8_fetch_failure_state_witness :
    ((fun _ => Except.error .fetchError : String → Except PyErr Soup) "u" =
      .error .fetchError) ∧
    ((from_url (fun _ => .error .fetchError) "u" []).2 = .error .fetchError ∧
      ((∃ a ∈ ([] : List StoredArticle), a.url = "u") →
        (from_url (fun _ => .error .fetchError) "u" []).1 = []) ∧
      ((∀ a ∈ ([] : List StoredArticle), a.url ≠ "u") →
        (from_url (fun _ => .error .fetchError) "u" []).1 = [] ++ [blankArticle "u"])) :=
  ⟨rfl, c8_fetch_failure_state (fun _ => .error .fetchError) "u" [] .fetchError rfl⟩

end KanjiCount

namespace KanjiKnown

open KanjiCount

/-- C10: adding a character for which no Kanji row exists raises
DoesNotExist and leaves the known set unchanged.  Kanji.objects.get
raises before the many-to-many add is reached, so a user can never add a
character the classifier does not recognize: a Kanji row with this char
exists iff is_kanji holds of it. -/
theorem c10_add_unknown_kanji_rejected (c : Char) (known : List Char)
    (h : is_kanji c = false) :
    add_known_kanji c known = (known, .error .doesNotExist) := by
  unfold add_known_kanji add_known_kanji_impl
  rw [h]
  rfl

/-- C10, witness: adding the non-kanji character A to the empty known set
raises DoesNotExist and returns the set unchanged. -/
theorem c10_add_unknown_kanji_rejected_witness :
    is_kanji 'A' = false ∧
      add_known_kanji 'A' [] = ([], .error .doesNotExist) := by
  have hA : is_kanji 'A' = false := by
    simp only [is_kanji_eq_arith]
    decide
  exact ⟨hA, c10_add_unknown_kanji_rejected 'A' [] hA⟩

/-- C5: the ranked output contains exactly the stored articles having at
least one KanjiCount row whose kanji is in the known set; an article
sharing no kanji with the known set is dropped by the inner join of
filter(kanjicount__kanji__in=...), not ranked with ratio 0. -/
theorem c5_output_membership (known : List Char) (db : List StoredArticle)
    (a : StoredArticle) :
    (∃ r : ℚ, (a, r) ∈ get_articles known db) ↔
      a ∈ db ∧ ∃ rec ∈ a.counts, rec.kanji ∈ known := by
  constructor
  · rintro ⟨r, hr⟩
    have hm := mem_get_articles.mp hr
    exact ⟨hm.1, hm.2.1⟩
  · rintro ⟨ha, hrec⟩
    exact ⟨_, mem_get_articles.mpr ⟨ha, hrec, rfl⟩⟩

/-- C2: every article in the ranked output carries as its ratio the sum
of the totals of its KanjiCount rows whose kanji is in the known set,
divided by its kanji_total. -/
theorem c2_ratio_formula (known : List Char) (db : List StoredArticle)
    (a : StoredArticle) (r : ℚ)
    (h : (a, r) ∈ get_articles known db) :
    r = (((a.counts.filter (fun rec => rec.kanji ∈ known)).map
            KanjiCountRec.total).sum : ℚ) / (a.kanji_total : ℚ) := by
  have hr := (mem_get_articles.mp h).2.2
  rw [hr]
  have hfe : (fun rec : KanjiCountRec => known.contains rec.kanji) =
      (fun rec : KanjiCountRec => decide (rec.kanji ∈ known)) := by
    funext rec
    simp [List.contains, List.elem_eq_mem]
  rw [matchTotal, hfe]

/-- C2, witness: with known set {一, 二} and the article exRanked, whose
rows are (一, 3), (二, 2), (三, 5) with kanji_total = 10, the article is
ranked with ratio 1/2 = 0.5, which the formula reproduces. -/
theorem c2_ratio_formula_witness :
    (exRanked, (1 : ℚ) / 2) ∈ get_articles ['一', '二'] [exRanked] ∧
    (1 : ℚ) / 2 =
      (((exRanked.counts.filter
            (fun rec => rec.kanji ∈ (['一', '二'] : List Char))).map
          KanjiCountRec.total).sum : ℚ) / (exRanked.kanji_total : ℚ) := by
  have hm : (exRanked, (1 : ℚ) / 2) ∈ get_articles ['一', '二'] [exRanked] := by
    apply mem_get_articles.mpr
    refine ⟨List.mem_singleton.mpr rfl, ⟨⟨'一', 3⟩, by decide, by decide⟩, ?_⟩
    have h5 : matchTotal ['一', '二'] exRanked = 5 := rfl
    have h10 : exRanked.kanji_total = 10 := rfl
    rw [h5, h10]
    norm_num
  exact ⟨hm, c2_ratio_formula _ _ _ _ hm⟩

/-- C4, counterexample: over arbitrary stored states the claim fails.  An
article row with kanji_total = 0 that still owns a KanjiCount row (a
state the processing code can produce, see the theorem for C3) survives
the join filter and appears in the ranked output; in SQL its annotation
divides by zero there (the ℚ embedding returns 0 for that division). -/
theorem c4_zero_total_counterexample :
    (exZeroTotal, (0 : ℚ)) ∈ get_articles ['一'] [exZeroTotal] ∧
    exZeroTotal.kanji_total = 0 := by
  refine ⟨?_, rfl⟩
  apply mem_get_articles.mpr
  refine ⟨List.mem_singleton.mpr rfl, ⟨⟨'一', 1⟩, by decide, by decide⟩, ?_⟩
  have h1 : matchTotal ['一'] exZeroTotal = 1 := rfl
  have h0 : exZeroTotal.kanji_total = 0 := rfl
  rw [h1, h0]
  norm_num

/-- C4, amended: over stored states in which every article satisfies the
processing sum invariant (kanji_total equals the sum of the totals of its
KanjiCount rows, each row total positive), an article with
kanji_total = 0 never appears in the ranked output, and every output
entry has a nonzero kanji_total, so the annotated division never divides
by zero. -/
theorem c4_zero_total_excluded (known : List Char) (db : List StoredArticle)
    (hinv : ∀ a ∈ db, a.kanji_total = (a.counts.map KanjiCountRec.total).sum)
    (hpos : ∀ a ∈ db, ∀ rec ∈ a.counts, 0 < rec.total)
    (a : StoredArticle) (r : ℚ) (h : (a, r) ∈ get_articles known db) :
    a.kanji_total ≠ 0 := by
  have hm := mem_get_articles.mp h
  obtain ⟨rec, hrec, _⟩ := hm.2.1
  have hle : rec.total ≤ (a.counts.map KanjiCountRec.total).sum :=
    List.single_le_sum (fun x _ => Nat.zero_le x) _
      (List.mem_map.mpr ⟨rec, hrec, rfl⟩)
  have hpos2 := hpos a hm.1 rec hrec
  rw [hinv a hm.1]
  omega

/-- C4, witness: the amended statement applied to a one-article state
satisfying the invariant; the article is ranked with ratio 1 and its
kanji_total is nonzero. -/
theorem c4_zero_total_excluded_witness :
    (exInvariant, (1 : ℚ)) ∈ get_articles ['一'] [exInvariant] ∧
    exInvariant.kanji_total ≠ 0 := by
  have hm : (exInvariant, (1 : ℚ)) ∈ get_articles ['一'] [exInvariant] := by
    apply mem_get_articles.mpr
    refine ⟨List.mem_singleton.mpr rfl, ⟨⟨'一', 5⟩, by decide, by decide⟩, ?_⟩
    have h5 : matchTotal ['一'] exInvariant = 5 := rfl
    have hk : exInvariant.kanji_total = 5 := rfl
    rw [h5, hk]
    norm_num
  exact ⟨hm, c4_zero_total_excluded ['一'] _ (by decide) (by decide) _ _ hm⟩

end KanjiKnown
